import Mathlib

/-!
Verification development for the P2P earthquake information service
(`backend/p2p_earthquake_service.py`).

The Python source is shallowly embedded: JSON values become an inductive
`Json` type; the pydantic message models become Lean structures with
`Option` fields for optional pydantic fields; model validation becomes
`Json → Option <record>` functions (a pydantic `ValidationError` is the
`none` result, matching the `try/except` wrappers in the source); the
mutable service object becomes a `ServiceState` record with explicit
state-passing step functions.  Numbers in JSON are modelled as rationals
(JSON has one number type; Python `==` identifies `551` and `551.0`);
pydantic `int` fields accept exactly the integral numbers, `float`
fields any number.  String-to-number coercion and non-bool truthy
coercions of pydantic's lax mode are not exercised by any claim and are
modelled strictly.
-/

/-- JSON values, as produced by `json.loads` in the monitor loop. -/
inductive Json where
  | null
  | bool (b : Bool)
  | num (q : ℚ)
  | str (s : String)
  | arr (items : List Json)
  | obj (fields : List (String × Json))

/-- Lookup of a key in a JSON object's field list (`dict.get`). -/
def alookup {β : Type} : List (String × β) → String → Option β
  | [], _ => none
  | (k, v) :: rest, key => if k = key then some v else alookup rest key

/-- Required `str` field: present and a string, else validation fails. -/
def reqStr (o : Option Json) : Option String :=
  match o with
  | some (.str s) => some s
  | _ => none

/-- Optional[str] field: absent or null gives `none`, a string is accepted. -/
def optStr (o : Option Json) : Option (Option String) :=
  match o with
  | none => some none
  | some .null => some none
  | some (.str s) => some (some s)
  | some _ => none

/-- Required `int` field: an integral JSON number. -/
def reqInt (o : Option Json) : Option Int :=
  match o with
  | some (.num q) => if q.den = 1 then some q.num else none
  | _ => none

/-- Optional[int] field. -/
def optInt (o : Option Json) : Option (Option Int) :=
  match o with
  | none => some none
  | some .null => some none
  | some (.num q) => if q.den = 1 then some (some q.num) else none
  | _ => none

/-- Required `float` field: any JSON number. -/
def reqFloat (o : Option Json) : Option ℚ :=
  match o with
  | some (.num q) => some q
  | _ => none

/-- Optional[float] field. -/
def optFloat (o : Option Json) : Option (Option ℚ) :=
  match o with
  | none => some none
  | some .null => some none
  | some (.num q) => some (some q)
  | some _ => none

/-- Required `bool` field. -/
def reqBool (o : Option Json) : Option Bool :=
  match o with
  | some (.bool b) => some b
  | _ => none

/-- Optional[bool] field with default `False` (the `test` field of `EEW`). -/
def optBoolDefFalse (o : Option Json) : Option (Option Bool) :=
  match o with
  | none => some (some false)
  | some .null => some none
  | some (.bool b) => some (some b)
  | some _ => none

/-- Required list field (`Field(...)` with no default): must be an array. -/
def reqList {α : Type} (f : Json → Option α) (o : Option Json) : Option (List α) :=
  match o with
  | some (.arr xs) => xs.mapM f
  | _ => none

/-- List field with default `[]` but not `Optional`: absent gives `[]`. -/
def reqListDefEmpty {α : Type} (f : Json → Option α) (o : Option Json) : Option (List α) :=
  match o with
  | none => some []
  | some (.arr xs) => xs.mapM f
  | _ => none

/-- Optional[List[...]] field with default `[]`: absent gives `some []`,
null gives `none`. -/
def optList {α : Type} (f : Json → Option α) (o : Option Json) : Option (Option (List α)) :=
  match o with
  | none => some (some [])
  | some .null => some none
  | some (.arr xs) => (xs.mapM f).map some
  | some _ => none

/-- Optional sub-model field: absent or null gives `none`. -/
def optModel {α : Type} (f : Json → Option α) (o : Option Json) : Option (Option α) :=
  match o with
  | none => some none
  | some .null => some none
  | some j => (f j).map some

/-- Required sub-model field. -/
def reqModel {α : Type} (f : Json → Option α) (o : Option Json) : Option α :=
  match o with
  | some j => f j
  | none => none

-- Record types mirroring the pydantic models of the source.

/-- 震源情報 (`HypocenterInfo`). -/
structure HypocenterInfo where
  name : Option String
  latitude : Option ℚ
  longitude : Option ℚ
  depth : Option Int
  magnitude : Option ℚ

/-- 発表元情報 (`IssueInfo`). -/
structure IssueInfo where
  source : Option String
  time : String
  type : String
  correct : Option String

/-- 地震情報 (`EarthquakeInfo`). -/
structure EarthquakeInfo where
  time : String
  hypocenter : Option HypocenterInfo
  maxScale : Option Int
  domesticTsunami : Option String
  foreignTsunami : Option String

/-- 震度観測点 (`ObservationPoint`). -/
structure ObservationPoint where
  pref : String
  addr : String
  isArea : Bool
  scale : Int

/-- 付加文 (`Comments`). -/
structure Comments where
  freeFormComment : String

/-- 地震情報 code 551 (`JMAQuake`), with the embedded `BasicData` fields. -/
structure JMAQuake where
  id : Option String
  code : Int
  time : String
  issue : IssueInfo
  earthquake : EarthquakeInfo
  points : Option (List ObservationPoint)
  comments : Option Comments

/-- 津波到達予想時刻 (`TsunamiFirstHeight`). -/
structure TsunamiFirstHeight where
  arrivalTime : Option String
  condition : Option String

/-- 予想される津波の高さ (`TsunamiMaxHeight`). -/
structure TsunamiMaxHeight where
  description : String
  value : Option ℚ

/-- 津波予報区域 (`TsunamiArea`). -/
structure TsunamiArea where
  grade : String
  immediate : Bool
  name : String
  firstHeight : Option TsunamiFirstHeight
  maxHeight : Option TsunamiMaxHeight

/-- 津波予報 code 552 (`JMATsunami`). -/
structure JMATsunami where
  id : Option String
  code : Int
  time : String
  cancelled : Bool
  issue : IssueInfo
  areas : List TsunamiArea

/-- 地域ピア情報 (`AreaPeer`). -/
structure AreaPeer where
  id : Int
  peer : Int

/-- 各地域ピア数 code 555 (`Areapeers`). -/
structure Areapeers where
  id : Option String
  code : Int
  time : String
  areas : List AreaPeer

/-- 緊急地震速報 発表検出 code 554 (`EEWDetection`). -/
structure EEWDetection where
  id : Option String
  code : Int
  time : String
  type : String

/-- 緊急地震速報 震源情報 (`EEWHypocenter`). -/
structure EEWHypocenter where
  name : Option String
  reduceName : Option String
  latitude : Option ℚ
  longitude : Option ℚ
  depth : Option ℚ
  magnitude : Option ℚ

/-- 緊急地震速報 地震情報 (`EEWEarthquake`). -/
structure EEWEarthquake where
  originTime : String
  arrivalTime : String
  condition : Option String
  hypocenter : EEWHypocenter

/-- 緊急地震速報 発表情報 (`EEWIssue`). -/
structure EEWIssue where
  time : String
  eventId : String
  serial : String

/-- 緊急地震速報 細分区域 (`EEWArea`). -/
structure EEWArea where
  pref : String
  name : String
  scaleFrom : ℚ
  scaleTo : ℚ
  kindCode : Option String
  arrivalTime : Option String

/-- 緊急地震速報（警報） code 556 (`EEW`). -/
structure EEW where
  id : Option String
  code : Int
  time : String
  test : Option Bool
  earthquake : Option EEWEarthquake
  issue : EEWIssue
  cancelled : Bool
  areas : Option (List EEWArea)

/-- 地震感知情報 code 561 (`Userquake`). -/
structure Userquake where
  id : Option String
  code : Int
  time : String
  area : Int

/-- 地域ごとの信頼度情報 (`AreaConfidence`). -/
structure AreaConfidence where
  confidence : ℚ
  count : Int
  display : Option String

/-- 地震感知情報 解析結果 code 9611 (`UserquakeEvaluation`). -/
structure UserquakeEvaluation where
  id : Option String
  code : Int
  time : String
  count : Int
  confidence : ℚ
  started_at : Option String
  updated_at : Option String
  area_confidences : Option (List (String × AreaConfidence))

-- Validators: pydantic `Model(**raw)` becomes `Json → Option Model`.

/-- Validate a `HypocenterInfo` object. -/
def parseHypocenterInfo (j : Json) : Option HypocenterInfo :=
  match j with
  | .obj fs => do
      let name ← optStr (alookup fs "name")
      let lat ← optFloat (alookup fs "latitude")
      let lon ← optFloat (alookup fs "longitude")
      let depth ← optInt (alookup fs "depth")
      let mag ← optFloat (alookup fs "magnitude")
      some ⟨name, lat, lon, depth, mag⟩
  | _ => none

/-- Validate an `IssueInfo` object. -/
def parseIssueInfo (j : Json) : Option IssueInfo :=
  match j with
  | .obj fs => do
      let source ← optStr (alookup fs "source")
      let time ← reqStr (alookup fs "time")
      let ty ← reqStr (alookup fs "type")
      let correct ← optStr (alookup fs "correct")
      some ⟨source, time, ty, correct⟩
  | _ => none

/-- Validate an `EarthquakeInfo` object. -/
def parseEarthquakeInfo (j : Json) : Option EarthquakeInfo :=
  match j with
  | .obj fs => do
      let time ← reqStr (alookup fs "time")
      let hypo ← optModel parseHypocenterInfo (alookup fs "hypocenter")
      let maxScale ← optInt (alookup fs "maxScale")
      let dom ← optStr (alookup fs "domesticTsunami")
      let foreign ← optStr (alookup fs "foreignTsunami")
      some ⟨time, hypo, maxScale, dom, foreign⟩
  | _ => none

/-- Validate an `ObservationPoint` object. -/
def parseObservationPoint (j : Json) : Option ObservationPoint :=
  match j with
  | .obj fs => do
      let pref ← reqStr (alookup fs "pref")
      let addr ← reqStr (alookup fs "addr")
      let isArea ← reqBool (alookup fs "isArea")
      let scale ← reqInt (alookup fs "scale")
      some ⟨pref, addr, isArea, scale⟩
  | _ => none

/-- Validate a `Comments` object (`freeFormComment` has default `""`). -/
def parseComments (j : Json) : Option Comments :=
  match j with
  | .obj fs =>
      match alookup fs "freeFormComment" with
      | none => some ⟨""⟩
      | some (.str s) => some ⟨s⟩
      | some _ => none
  | _ => none

/-- Validate the `BasicData` fields shared by every variant. -/
def parseBasicData (fs : List (String × Json)) : Option (Option String × Int × String) := do
  let id ← optStr (alookup fs "id")
  let code ← reqInt (alookup fs "code")
  let time ← reqStr (alookup fs "time")
  some (id, code, time)

/-- Validate a `JMAQuake` (code 551) message. -/
def parseJMAQuake (j : Json) : Option JMAQuake :=
  match j with
  | .obj fs => do
      let (id, code, time) ← parseBasicData fs
      let issue ← reqModel parseIssueInfo (alookup fs "issue")
      let eq ← reqModel parseEarthquakeInfo (alookup fs "earthquake")
      let points ← optList parseObservationPoint (alookup fs "points")
      let comments ← optModel parseComments (alookup fs "comments")
      some ⟨id, code, time, issue, eq, points, comments⟩
  | _ => none

/-- Validate a `TsunamiFirstHeight` object. -/
def parseTsunamiFirstHeight (j : Json) : Option TsunamiFirstHeight :=
  match j with
  | .obj fs => do
      let at_ ← optStr (alookup fs "arrivalTime")
      let cond ← optStr (alookup fs "condition")
      some ⟨at_, cond⟩
  | _ => none

/-- Validate a `TsunamiMaxHeight` object. -/
def parseTsunamiMaxHeight (j : Json) : Option TsunamiMaxHeight :=
  match j with
  | .obj fs => do
      let desc ← reqStr (alookup fs "description")
      let v ← optFloat (alookup fs "value")
      some ⟨desc, v⟩
  | _ => none

/-- Validate a `TsunamiArea` object. -/
def parseTsunamiArea (j : Json) : Option TsunamiArea :=
  match j with
  | .obj fs => do
      let grade ← reqStr (alookup fs "grade")
      let imm ← reqBool (alookup fs "immediate")
      let name ← reqStr (alookup fs "name")
      let fh ← optModel parseTsunamiFirstHeight (alookup fs "firstHeight")
      let mh ← optModel parseTsunamiMaxHeight (alookup fs "maxHeight")
      some ⟨grade, imm, name, fh, mh⟩
  | _ => none

/-- Validate a `JMATsunami` (code 552) message. -/
def parseJMATsunami (j : Json) : Option JMATsunami :=
  match j with
  | .obj fs => do
      let (id, code, time) ← parseBasicData fs
      let cancelled ← reqBool (alookup fs "cancelled")
      let issue ← reqModel parseIssueInfo (alookup fs "issue")
      let areas ← reqListDefEmpty parseTsunamiArea (alookup fs "areas")
      some ⟨id, code, time, cancelled, issue, areas⟩
  | _ => none

/-- Validate an `AreaPeer` object. -/
def parseAreaPeer (j : Json) : Option AreaPeer :=
  match j with
  | .obj fs => do
      let id ← reqInt (alookup fs "id")
      let peer ← reqInt (alookup fs "peer")
      some ⟨id, peer⟩
  | _ => none

/-- Validate an `Areapeers` (code 555) message. -/
def parseAreapeers (j : Json) : Option Areapeers :=
  match j with
  | .obj fs => do
      let (id, code, time) ← parseBasicData fs
      let areas ← reqList parseAreaPeer (alookup fs "areas")
      some ⟨id, code, time, areas⟩
  | _ => none

/-- Validate an `EEWDetection` (code 554) message. -/
def parseEEWDetection (j : Json) : Option EEWDetection :=
  match j with
  | .obj fs => do
      let (id, code, time) ← parseBasicData fs
      let ty ← reqStr (alookup fs "type")
      some ⟨id, code, time, ty⟩
  | _ => none

/-- Validate an `EEWHypocenter` object. -/
def parseEEWHypocenter (j : Json) : Option EEWHypocenter :=
  match j with
  | .obj fs => do
      let name ← optStr (alookup fs "name")
      let rn ← optStr (alookup fs "reduceName")
      let lat ← optFloat (alookup fs "latitude")
      let lon ← optFloat (alookup fs "longitude")
      let depth ← optFloat (alookup fs "depth")
      let mag ← optFloat (alookup fs "magnitude")
      some ⟨name, rn, lat, lon, depth, mag⟩
  | _ => none

/-- Validate an `EEWEarthquake` object. -/
def parseEEWEarthquake (j : Json) : Option EEWEarthquake :=
  match j with
  | .obj fs => do
      let ot ← reqStr (alookup fs "originTime")
      let at_ ← reqStr (alookup fs "arrivalTime")
      let cond ← optStr (alookup fs "condition")
      let hypo ← reqModel parseEEWHypocenter (alookup fs "hypocenter")
      some ⟨ot, at_, cond, hypo⟩
  | _ => none

/-- Validate an `EEWIssue` object. -/
def parseEEWIssue (j : Json) : Option EEWIssue :=
  match j with
  | .obj fs => do
      let time ← reqStr (alookup fs "time")
      let ev ← reqStr (alookup fs "eventId")
      let serial ← reqStr (alookup fs "serial")
      some ⟨time, ev, serial⟩
  | _ => none

/-- Validate an `EEWArea` object. -/
def parseEEWArea (j : Json) : Option EEWArea :=
  match j with
  | .obj fs => do
      let pref ← reqStr (alookup fs "pref")
      let name ← reqStr (alookup fs "name")
      let sf ← reqFloat (alookup fs "scaleFrom")
      let st ← reqFloat (alookup fs "scaleTo")
      let kc ← optStr (alookup fs "kindCode")
      let at_ ← optStr (alookup fs "arrivalTime")
      some ⟨pref, name, sf, st, kc, at_⟩
  | _ => none

/-- Validate an `EEW` (code 556) message. -/
def parseEEW (j : Json) : Option EEW :=
  match j with
  | .obj fs => do
      let (id, code, time) ← parseBasicData fs
      let test ← optBoolDefFalse (alookup fs "test")
      let eq ← optModel parseEEWEarthquake (alookup fs "earthquake")
      let issue ← reqModel parseEEWIssue (alookup fs "issue")
      let cancelled ← reqBool (alookup fs "cancelled")
      let areas ← optList parseEEWArea (alookup fs "areas")
      some ⟨id, code, time, test, eq, issue, cancelled, areas⟩
  | _ => none

/-- Validate a `Userquake` (code 561) message. -/
def parseUserquake (j : Json) : Option Userquake :=
  match j with
  | .obj fs => do
      let (id, code, time) ← parseBasicData fs
      let area ← reqInt (alookup fs "area")
      some ⟨id, code, time, area⟩
  | _ => none

/-- Validate an `AreaConfidence` object. -/
def parseAreaConfidence (j : Json) : Option AreaConfidence :=
  match j with
  | .obj fs => do
      let conf ← reqFloat (alookup fs "confidence")
      let count ← reqInt (alookup fs "count")
      let disp ← optStr (alookup fs "display")
      some ⟨conf, count, disp⟩
  | _ => none

/-- Optional[Dict[str, AreaConfidence]] field with default empty dict. -/
def optConfidenceDict (o : Option Json) : Option (Option (List (String × AreaConfidence))) :=
  match o with
  | none => some (some [])
  | some .null => some none
  | some (.obj fs) =>
      (fs.mapM (fun p => (parseAreaConfidence p.2).map (fun v => (p.1, v)))).map some
  | some _ => none

/-- Validate a `UserquakeEvaluation` (code 9611) message. -/
def parseUserquakeEvaluation (j : Json) : Option UserquakeEvaluation :=
  match j with
  | .obj fs => do
      let (id, code, time) ← parseBasicData fs
      let count ← reqInt (alookup fs "count")
      let conf ← reqFloat (alookup fs "confidence")
      let sa ← optStr (alookup fs "started_at")
      let ua ← optStr (alookup fs "updated_at")
      let ac ← optConfidenceDict (alookup fs "area_confidences")
      some ⟨id, code, time, count, conf, sa, ua, ac⟩
  | _ => none

/-- Parsed messages: the `P2PEarthquakeInfo` union of the source. -/
inductive PMsg where
  | jmaQuake (v : JMAQuake)
  | jmaTsunami (v : JMATsunami)
  | areapeers (v : Areapeers)
  | eewDetection (v : EEWDetection)
  | eew (v : EEW)
  | userquake (v : Userquake)
  | userquakeEvaluation (v : UserquakeEvaluation)

/-- The `code` field of a parsed message (`data.code`). -/
def PMsg.code : PMsg → Int
  | .jmaQuake v => v.code
  | .jmaTsunami v => v.code
  | .areapeers v => v.code
  | .eewDetection v => v.code
  | .eew v => v.code
  | .userquake v => v.code
  | .userquakeEvaluation v => v.code

/-- `isinstance(data, JMAQuake)`. -/
def PMsg.isJmaQuake : PMsg → Bool
  | .jmaQuake _ => true
  | _ => false

/-- `isinstance(data, JMATsunami)`. -/
def PMsg.isJmaTsunami : PMsg → Bool
  | .jmaTsunami _ => true
  | _ => false

/-- `isinstance(data, EEW)`. -/
def PMsg.isEew : PMsg → Bool
  | .eew _ => true
  | _ => false

/-- `_parse_response_data`: dispatch on `raw_data.get('code')`, try to
validate the matching variant, and return `none` for an unknown code, a
missing or non-numeric code, a non-dict payload, or a validation error
(every exception inside the body is caught and turned into `None`). -/
def parseResponseData (raw : Json) : Option PMsg :=
  match raw with
  | .obj fs =>
      match alookup fs "code" with
      | some (.num q) =>
          if q = 551 then (parseJMAQuake raw).map PMsg.jmaQuake
          else if q = 552 then (parseJMATsunami raw).map PMsg.jmaTsunami
          else if q = 555 then (parseAreapeers raw).map PMsg.areapeers
          else if q = 554 then (parseEEWDetection raw).map PMsg.eewDetection
          else if q = 556 then (parseEEW raw).map PMsg.eew
          else if q = 561 then (parseUserquake raw).map PMsg.userquake
          else if q = 9611 then (parseUserquakeEvaluation raw).map PMsg.userquakeEvaluation
          else none
      | _ => none
  | _ => none

/-- `scale_int_to_string`: the fixed JMA intensity lookup table
(`scale_map.get(scale_int, "不明")`). -/
def scale_int_to_string (scale_int : Int) : String :=
  if scale_int = 10 then "1"
  else if scale_int = 20 then "2"
  else if scale_int = 30 then "3"
  else if scale_int = 40 then "4"
  else if scale_int = 45 then "5弱"
  else if scale_int = 46 then "5弱*"
  else if scale_int = 50 then "5強"
  else if scale_int = 55 then "6弱"
  else if scale_int = 60 then "6強"
  else if scale_int = 70 then "7"
  else "不明"

-- Service state and the WebSocket monitor loop.

/-- A registered callback: the source distinguishes coroutine callbacks
(`asyncio.iscoroutinefunction`) from plain ones but invokes both with the
parsed message; a callback either returns normally or raises (the
`Except` error carries the exception text). -/
inductive Callback where
  | sync (f : PMsg → Except String Unit)
  | async (f : PMsg → Except String Unit)

/-- Invoke one callback: `await callback(data)` or `callback(data)`. -/
def runCallback (cb : Callback) (m : PMsg) : Except String Unit :=
  match cb with
  | .sync f => f m
  | .async f => f m

/-- Integer-keyed dict lookup (`code in dict` / `dict[code]`). -/
def ilookup {β : Type} : List (Int × β) → Int → Option β
  | [], _ => none
  | (k, v) :: rest, key => if k = key then some v else ilookup rest key

/-- Integer-keyed dict assignment: overwrite in place, else append
(Python dicts keep insertion order). -/
def idictSet {β : Type} : List (Int × β) → Int → β → List (Int × β)
  | [], k, v => [(k, v)]
  | (k', v') :: rest, k, v =>
      if k' = k then (k, v) :: rest else (k', v') :: idictSet rest k v

/-- A WebSocket connection object; `isOpen` is false once closed. -/
structure WsConn where
  id : Nat
  isOpen : Bool

/-- Mutable state of a `P2PEarthquakeService` instance. -/
structure ServiceState where
  is_monitoring : Bool
  ws_connection : Option WsConn
  session : Option Nat
  latest_data : List (Int × PMsg)
  data_history : List PMsg
  callbacks : List (Int × List Callback)
  last_request_time : ℚ

/-- `register_callback`: create the per-code list if absent, then append. -/
def register_callback (cbs : List (Int × List Callback)) (code : Int) (cb : Callback) :
    List (Int × List Callback) :=
  match ilookup cbs code with
  | some l => idictSet cbs code (l ++ [cb])
  | none => cbs ++ [(code, [cb])]

/-- `_trigger_callbacks` body: run the handlers registered for a list in
order, catching (and logging) any exception, so that a raising handler
never stops the remaining ones; the returned trace records each
invocation's outcome in order. -/
def triggerCallbacksList (cbs : List Callback) (m : PMsg) : List (Except String Unit) :=
  match cbs with
  | [] => []
  | cb :: rest =>
      match runCallback cb m with
      | .ok _ => .ok () :: triggerCallbacksList rest m
      | .error e => .error e :: triggerCallbacksList rest m

/-- `_trigger_callbacks`: dispatch to the handlers registered for
`data.code`, if any. -/
def triggerCallbacks (st : ServiceState) (m : PMsg) : List (Except String Unit) :=
  match ilookup st.callbacks m.code with
  | some cbs => triggerCallbacksList cbs m
  | none => []

/-- One iteration of the monitor's message loop for a decoded frame:
parse; on success overwrite `latest_data[code]`, append to
`data_history` keeping the last 1000 items (`self.data_history =
self.data_history[-1000:]` once the length exceeds 1000), and trigger
callbacks.  On parse failure the state is untouched and nothing is
dispatched.  Returns the new state and the callback-invocation trace. -/
def monitorStep (st : ServiceState) (raw : Json) : ServiceState × List (Except String Unit) :=
  match parseResponseData raw with
  | some parsed =>
      let latest := idictSet st.latest_data parsed.code parsed
      let hist0 := st.data_history ++ [parsed]
      let hist := if hist0.length > 1000 then hist0.drop (hist0.length - 1000) else hist0
      let trace := triggerCallbacks st parsed
      ({ st with latest_data := latest, data_history := hist }, trace)
  | none => (st, [])

/-- Run the monitor loop over a sequence of decoded frames. -/
def runMonitor (st : ServiceState) (raws : List Json) : ServiceState :=
  raws.foldl (fun s r => (monitorStep s r).1) st

/-- Python's `lst[-limit:]` for a non-negative `limit`: for `limit = 0`
this is `lst[0:]`, the whole list. -/
def pySliceLast {α : Type} (l : List α) (limit : Nat) : List α :=
  if limit = 0 then l else l.drop (l.length - limit)

/-- `get_latest_earthquakes`: filter the history by `isinstance(data,
JMAQuake)` and return `earthquakes[-limit:] if earthquakes else []`. -/
def get_latest_earthquakes (st : ServiceState) (limit : Nat) : List PMsg :=
  let earthquakes := st.data_history.filter PMsg.isJmaQuake
  if earthquakes.isEmpty then [] else pySliceLast earthquakes limit

/-- `get_latest_tsunamis`. -/
def get_latest_tsunamis (st : ServiceState) (limit : Nat) : List PMsg :=
  let tsunamis := st.data_history.filter PMsg.isJmaTsunami
  if tsunamis.isEmpty then [] else pySliceLast tsunamis limit

/-- `get_latest_eew`. -/
def get_latest_eew (st : ServiceState) (limit : Nat) : List PMsg :=
  let eews := st.data_history.filter PMsg.isEew
  if eews.isEmpty then [] else pySliceLast eews limit

/-- The dictionary returned by `get_service_status`. -/
structure ServiceStatus where
  is_monitoring : Bool
  websocket_connected : Bool
  latest_data_count : Nat
  history_count : Nat
  registered_callbacks : Nat

/-- `get_service_status`: in particular `websocket_connected` is
`self.ws_connection is not None` (the URL/sandbox entries of the dict
are configuration constants and are omitted here). -/
def get_service_status (st : ServiceState) : ServiceStatus :=
  { is_monitoring := st.is_monitoring
    websocket_connected := st.ws_connection.isSome
    latest_data_count := st.latest_data.length
    history_count := st.data_history.length
    registered_callbacks := (st.callbacks.map (fun p => p.2.length)).sum }

/-- `stop_websocket_monitoring`: set the running flag false.  Nothing
else in the state is touched. -/
def stop_websocket_monitoring (st : ServiceState) : ServiceState :=
  { st with is_monitoring := false }

/-- `cleanup`: clear the flag, close and drop the WebSocket connection,
close and drop the HTTP session. -/
def cleanup (st : ServiceState) : ServiceState :=
  { st with is_monitoring := false, ws_connection := none, session := none }

/-- Decision taken at each of the monitor loop's flag checks
(the `while self.is_monitoring` condition, the `if not
self.is_monitoring: break` inside the frame loop, and the reconnect
guard): continue, or exit normally. -/
inductive LoopDecision where
  | continueLoop
  | exitLoop
deriving DecidableEq

/-- The monitor loop's running-flag check. -/
def monitorFlagCheck (st : ServiceState) : LoopDecision :=
  if st.is_monitoring then .continueLoop else .exitLoop

/-- Operations of the service that can run between a successful connect
and `cleanup`, as they appear in the source. -/
inductive ServiceOp where
  | startMonitoring
  | wsConnect (c : WsConn)
  | wsMessage (raw : Json)
  | wsConnectionLost
  | reconnectWait
  | stopMonitoring
  | registerCb (code : Int) (cb : Callback)
  | cleanupOp

/-- Effect of each operation on the service state.  A successful
`websockets.connect` stores the new connection; a lost connection is
only logged (`ws_connection` keeps the stale object); the backoff sleep
changes nothing. -/
def applyOp (st : ServiceState) (op : ServiceOp) : ServiceState :=
  match op with
  | .startMonitoring => { st with is_monitoring := true }
  | .wsConnect c => { st with ws_connection := some c }
  | .wsMessage raw => (monitorStep st raw).1
  | .wsConnectionLost => st
  | .reconnectWait => st
  | .stopMonitoring => stop_websocket_monitoring st
  | .registerCb code cb => { st with callbacks := register_callback st.callbacks code cb }
  | .cleanupOp => cleanup st

-- Rate-limited HTTP client: by-id lookups and the rate limiter.

/-- Severity of a log record emitted by the client. -/
inductive LogLevel where
  | info
  | warning
  | error
deriving DecidableEq

/-- Outcome of one `session.get`: an HTTP response with status and JSON
body, or a network/timeout exception raised while requesting. -/
inductive HttpResult where
  | response (status : Int) (body : Json)
  | netError

/-- `get_jma_quake_by_id` after the rate-limit wait: 200 validates the
body (a validation or JSON error is caught by the enclosing `except`,
logged at error level, and yields `None`); 404 logs a warning and yields
`None`; any other status logs an error and yields `None`; a network
exception is caught, logged at error level, and yields `None`.  The
second component is the list of log records emitted. -/
def get_jma_quake_by_id (resp : HttpResult) : Option JMAQuake × List LogLevel :=
  match resp with
  | .response status body =>
      if status = 200 then
        match parseJMAQuake body with
        | some q => (some q, [])
        | none => (none, [.error])
      else if status = 404 then (none, [.warning])
      else (none, [.error])
  | .netError => (none, [.error])

/-- `get_jma_tsunami_by_id`, with the same shape as the quake lookup. -/
def get_jma_tsunami_by_id (resp : HttpResult) : Option JMATsunami × List LogLevel :=
  match resp with
  | .response status body =>
      if status = 200 then
        match parseJMATsunami body with
        | some t => (some t, [])
        | none => (none, [.error])
      else if status = 404 then (none, [.warning])
      else (none, [.error])
  | .netError => (none, [.error])

/-- `_rate_limit`, sleep amount: with `time_since_last = t - last`, sleep
`rate_limit_delay - time_since_last` when `time_since_last <
rate_limit_delay`, else not at all.  Time is modelled as rationals. -/
def rateLimitSleep (delay last t : ℚ) : ℚ :=
  if t - last < delay then delay - (t - last) else 0

/-- Instant at which `_rate_limit` returns when entered at clock time `t`
with stored `last_request_time = last`, assuming `asyncio.sleep(w)`
resumes exactly `w` later; `self.last_request_time` is then set to this
same instant (the clock is read again right after the sleep), and in the
back-to-back model the outbound request is issued at this instant. -/
def rateLimitReturnTime (delay last t : ℚ) : ℚ :=
  t + rateLimitSleep delay last t

-- The `parse_p2p_time` utility: an embedding of
-- `datetime.strptime(time_str, "%Y/%m/%d %H:%M:%S.%f")` and
-- `datetime.strptime(time_str, "%Y/%m/%d %H:%M:%S")` with the
-- fallback-to-now behaviour.  Directive field patterns follow CPython's
-- `_strptime` regular expressions: `%Y` is exactly four digits, `%m`
-- `1[0-2]|0[1-9]|[1-9]`, `%d` `3[01]|[12]\d|0[1-9]|[1-9]`, `%H`
-- `2[0-3]|[0-1]\d|\d`, `%M` `[0-5]\d|\d`, `%S` `6[0-1]|[0-5]\d|\d`,
-- `%f` one to six digits (scaled to microseconds), and literal
-- whitespace in the format matches one or more whitespace characters.
-- The two-digit alternatives of each field precede the one-digit one,
-- so each numeric field tries the two-digit reading first; `re.match`
-- must consume the whole string; the final `datetime(...)` construction
-- checks calendar validity and raises `ValueError` (caught by the
-- source) otherwise.

/-- Character for the decimal digit `d`. -/
def dChar (d : Nat) : Char := Char.ofNat (48 + d)

/-- Test for an ASCII decimal digit. -/
def isDigitChar (c : Char) : Bool := 48 ≤ c.toNat && c.toNat ≤ 57

/-- Numeric value of an ASCII digit character. -/
def dVal (c : Char) : Nat := c.toNat - 48

/-- Match one literal character. -/
def expectChar (c : Char) : List Char → Option (List Char)
  | x :: rest => if x = c then some rest else none
  | [] => none

/-- Consume any further whitespace characters. -/
def skipWs : List Char → List Char
  | x :: rest => if x.isWhitespace then skipWs rest else x :: rest
  | [] => []

/-- Match one-or-more whitespace characters (format-string whitespace). -/
def expectWs : List Char → Option (List Char)
  | x :: rest => if x.isWhitespace then some (skipWs rest) else none
  | [] => none

/-- Match exactly four digits (`%Y`). -/
def read4Digits : List Char → Option (Nat × List Char)
  | c0 :: c1 :: c2 :: c3 :: rest =>
      if isDigitChar c0 && isDigitChar c1 && isDigitChar c2 && isDigitChar c3 then
        some (1000 * dVal c0 + 100 * dVal c1 + 10 * dVal c2 + dVal c3, rest)
      else none
  | _ => none

/-- Match a one-or-two digit field whose two-digit alternatives come
first: read two digits if their value satisfies `allow2`, else one digit
if its value satisfies `allow1`. -/
def readNum2 (allow2 allow1 : Nat → Bool) : List Char → Option (Nat × List Char)
  | c0 :: c1 :: rest =>
      if isDigitChar c0 && isDigitChar c1 && allow2 (10 * dVal c0 + dVal c1) then
        some (10 * dVal c0 + dVal c1, rest)
      else if isDigitChar c0 && allow1 (dVal c0) then some (dVal c0, c1 :: rest)
      else none
  | [c0] => if isDigitChar c0 && allow1 (dVal c0) then some (dVal c0, []) else none
  | [] => none

/-- Collect up to `n` leading digit characters. -/
def takeDigits : Nat → List Char → List Char × List Char
  | 0, cs => ([], cs)
  | _ + 1, [] => ([], [])
  | n + 1, c :: cs =>
      if isDigitChar c then
        let p := takeDigits n cs
        (c :: p.1, p.2)
      else ([], c :: cs)

/-- Value of a digit string, most significant first. -/
def digitsVal (ds : List Char) : Nat := ds.foldl (fun a c => 10 * a + dVal c) 0

/-- Match `%f`: one to six digits, scaled to microseconds. -/
def readFrac (cs : List Char) : Option (Nat × List Char) :=
  let p := takeDigits 6 cs
  if p.1.length = 0 then none
  else some (digitsVal p.1 * 10 ^ (6 - p.1.length), p.2)

/-- Gregorian leap-year rule. -/
def isLeapYear (y : Nat) : Bool := (y % 4 == 0 && y % 100 != 0) || y % 400 == 0

/-- Number of days of month `m` in year `y`. -/
def daysInMonth (y m : Nat) : Nat :=
  if m = 2 then (if isLeapYear y then 29 else 28)
  else if m = 4 ∨ m = 6 ∨ m = 9 ∨ m = 11 then 30
  else 31

/-- A `datetime.datetime` value. -/
structure PDateTime where
  year : Nat
  month : Nat
  day : Nat
  hour : Nat
  minute : Nat
  second : Nat
  microsecond : Nat
deriving DecidableEq

/-- The `datetime(...)` constructor: `ValueError` (here `none`) outside
the documented ranges. -/
def mkDatetime (y mo d h mi s us : Nat) : Option PDateTime :=
  if 1 ≤ y ∧ y ≤ 9999 ∧ 1 ≤ mo ∧ mo ≤ 12 ∧ 1 ≤ d ∧ d ≤ daysInMonth y mo ∧
      h ≤ 23 ∧ mi ≤ 59 ∧ s ≤ 59 ∧ us ≤ 999999 then
    some ⟨y, mo, d, h, mi, s, us⟩
  else none

/-- Shared date-and-time part of both formats: `%Y/%m/%d %H:%M:%S`. -/
def strptimeCore (cs : List Char) :
    Option (Nat × Nat × Nat × Nat × Nat × Nat × List Char) :=
  match read4Digits cs with
  | none => none
  | some (y, cs1) =>
      match expectChar '/' cs1 with
      | none => none
      | some cs2 =>
          match readNum2 (fun v => 1 ≤ v && v ≤ 12) (fun v => 1 ≤ v && v ≤ 9) cs2 with
          | none => none
          | some (mo, cs3) =>
              match expectChar '/' cs3 with
              | none => none
              | some cs4 =>
                  match readNum2 (fun v => 1 ≤ v && v ≤ 31) (fun v => 1 ≤ v && v ≤ 9) cs4 with
                  | none => none
                  | some (d, cs5) =>
                      match expectWs cs5 with
                      | none => none
                      | some cs6 =>
                          match readNum2 (fun v => v ≤ 23) (fun _ => true) cs6 with
                          | none => none
                          | some (h, cs7) =>
                              match expectChar ':' cs7 with
                              | none => none
                              | some cs8 =>
                                  match readNum2 (fun v => v ≤ 59) (fun _ => true) cs8 with
                                  | none => none
                                  | some (mi, cs9) =>
                                      match expectChar ':' cs9 with
                                      | none => none
                                      | some cs10 =>
                                          match readNum2 (fun v => v ≤ 61) (fun _ => true) cs10 with
                                          | none => none
                                          | some (s, cs11) => some (y, mo, d, h, mi, s, cs11)

/-- `datetime.strptime(time_str, "%Y/%m/%d %H:%M:%S.%f")`. -/
def strptimeWithFrac (cs : List Char) : Option PDateTime :=
  match strptimeCore cs with
  | none => none
  | some (y, mo, d, h, mi, s, rest) =>
      match expectChar '.' rest with
      | none => none
      | some rest2 =>
          match readFrac rest2 with
          | none => none
          | some (us, rest3) =>
              if rest3.isEmpty then mkDatetime y mo d h mi s us else none

/-- `datetime.strptime(time_str, "%Y/%m/%d %H:%M:%S")`. -/
def strptimeNoFrac (cs : List Char) : Option PDateTime :=
  match strptimeCore cs with
  | none => none
  | some (y, mo, d, h, mi, s, rest) =>
      if rest.isEmpty then mkDatetime y mo d h mi s 0 else none

/-- `parse_p2p_time`: try the fractional format, then the plain format,
falling back to `datetime.now()` (passed in as `now`); each `ValueError`
is caught, so the function always returns a datetime. -/
def parse_p2p_time (now : PDateTime) (cs : List Char) : PDateTime :=
  match strptimeWithFrac cs with
  | some dt => dt
  | none =>
      match strptimeNoFrac cs with
      | some dt => dt
      | none => now

/-- Two-digit zero-padded rendering. -/
def pad2 (v : Nat) : List Char := [dChar (v / 10), dChar (v % 10)]

/-- Four-digit zero-padded rendering. -/
def pad4 (v : Nat) : List Char :=
  [dChar (v / 1000), dChar (v / 100 % 10), dChar (v / 10 % 10), dChar (v % 10)]

/-- `k`-digit zero-padded rendering. -/
def padVar : Nat → Nat → List Char
  | 0, _ => []
  | n + 1, v => dChar (v / 10 ^ n) :: padVar n (v % 10 ^ n)

/-- A canonical `YYYY/MM/DD HH:MM:SS` time string. -/
def renderDateTime (y mo d h mi s : Nat) : List Char :=
  pad4 y ++ '/' :: pad2 mo ++ '/' :: pad2 d ++ ' ' :: pad2 h ++ ':' :: pad2 mi ++ ':' :: pad2 s

/-- A canonical time string with a `k`-digit fractional-seconds suffix. -/
def renderWithFrac (y mo d h mi s k f : Nat) : List Char :=
  renderDateTime y mo d h mi s ++ '.' :: padVar k f

-- Concrete sample inputs and states used by witnesses and counterexamples.

/-- A minimal valid JMAQuake (code 551) JSON object. -/
def quakeFields : List (String × Json) :=
  [("code", Json.num 551), ("time", Json.str "2025/01/01 12:00:00"),
   ("issue", Json.obj [("time", Json.str "2025/01/01 12:00:10"), ("type", Json.str "DetailScale")]),
   ("earthquake", Json.obj [("time", Json.str "2025/01/01 11:59:50"),
     ("maxScale", Json.num 55)])]

/-- The JSON message with the fields of `quakeFields`. -/
def jsonQuakeSample : Json := Json.obj quakeFields

/-- The parsed form of `jsonQuakeSample`. -/
def sampleQuakeMsg : PMsg :=
  PMsg.jmaQuake
    { id := none, code := 551, time := "2025/01/01 12:00:00"
      issue := { source := none, time := "2025/01/01 12:00:10", type := "DetailScale", correct := none }
      earthquake := { time := "2025/01/01 11:59:50", hypocenter := none, maxScale := some 55,
                      domesticTsunami := none, foreignTsunami := none }
      points := some [], comments := none }

/-- A JSON message whose `code` (999) is not a known information code. -/
def unknownFields : List (String × Json) :=
  [("code", Json.num 999), ("time", Json.str "2025/01/01 12:00:00")]

/-- A fresh service state: monitoring just started, no data yet. -/
def stEmpty : ServiceState :=
  { is_monitoring := true, ws_connection := some ⟨0, true⟩, session := some 0,
    latest_data := [], data_history := [], callbacks := [], last_request_time := 0 }

/-- A state whose history holds one earthquake message. -/
def stOneQuake : ServiceState :=
  { stEmpty with data_history := [sampleQuakeMsg] }

/-- A state with an open WebSocket connection, used against the claim
that `stop_websocket_monitoring` closes it. -/
def stStop : ServiceState :=
  { is_monitoring := true, ws_connection := some ⟨0, true⟩, session := some 0,
    latest_data := [], data_history := [], callbacks := [], last_request_time := 0 }

/-- A state whose `ws_connection` still references a closed (stale)
connection object, as after a connection loss. -/
def stClosed : ServiceState :=
  { is_monitoring := true, ws_connection := some ⟨1, false⟩, session := some 0,
    latest_data := [], data_history := [], callbacks := [], last_request_time := 0 }

/-- A fixed reference instant standing for `datetime.now()`. -/
def pNow : PDateTime := ⟨2000, 1, 1, 0, 0, 0, 0⟩

/-- Python's `lst[-n:]` for positive `n`, as a specification device: the
suffix of the last at-most-`n` elements. -/
def takeLast {α : Type} (l : List α) (n : Nat) : List α := l.drop (l.length - n)

-- Helper lemmas.

theorem monitorStep_ws (st : ServiceState) (raw : Json) :
    (monitorStep st raw).1.ws_connection = st.ws_connection := by
  unfold monitorStep
  cases parseResponseData raw <;> rfl

-- Claim theorems.

/-- C3 counterexample: the claim maps every integer outside
{10,45,46,50,55,60,70} to "不明", but the code's table also contains
20→"2" (and 30→"3", 40→"4"), so at input 20 the claimed label "不明"
disagrees with the computed label "2". -/
theorem scale_claim_counterexample :
    scale_int_to_string 20 = "2" ∧ scale_int_to_string 20 ≠ "不明" := by
  constructor
  · decide
  · decide

/-- C3 (amended): `scale_int_to_string` realises the full table of the
source — 10→"1", 20→"2", 30→"3", 40→"4", 45→"5弱", 46→"5弱*", 50→"5強",
55→"6弱", 60→"6強", 70→"7" — and "不明" for every other integer
(including 0, the encoding of an absent `maxScale`). -/
theorem scale_int_to_string_spec :
    (∀ n : Int, n ∉ ([10, 20, 30, 40, 45, 46, 50, 55, 60, 70] : List Int) →
      scale_int_to_string n = "不明") ∧
    scale_int_to_string 10 = "1" ∧ scale_int_to_string 20 = "2" ∧
    scale_int_to_string 30 = "3" ∧ scale_int_to_string 40 = "4" ∧
    scale_int_to_string 45 = "5弱" ∧ scale_int_to_string 46 = "5弱*" ∧
    scale_int_to_string 50 = "5強" ∧ scale_int_to_string 55 = "6弱" ∧
    scale_int_to_string 60 = "6強" ∧ scale_int_to_string 70 = "7" := by
  refine ⟨?_, by decide, by decide, by decide, by decide, by decide,
    by decide, by decide, by decide, by decide, by decide⟩
  intro n hn
  simp only [List.mem_cons, List.not_mem_nil, or_false, not_or] at hn
  obtain ⟨h1, h2, h3, h4, h5, h6, h7, h8, h9, h10⟩ := hn
  unfold scale_int_to_string
  rw [if_neg h1, if_neg h2, if_neg h3, if_neg h4, if_neg h5, if_neg h6,
    if_neg h7, if_neg h8, if_neg h9, if_neg h10]

/-- C3 witness: 0 (absent/zero maxScale) is outside the table and maps
to "不明". -/
theorem scale_int_to_string_spec_witness :
    (0 : Int) ∉ ([10, 20, 30, 40, 45, 46, 50, 55, 60, 70] : List Int) ∧
    scale_int_to_string 0 = "不明" :=
  ⟨by decide, scale_int_to_string_spec.1 0 (by decide)⟩

/-- C6: by-id lookups return `None` on a 404 (logging only a warning,
never at error level), `None` on any other non-200 status, and `None`
when the request raises a network/timeout exception; in every case the
function returns instead of propagating an exception. -/
theorem by_id_error_handling :
    (∀ body : Json,
        get_jma_quake_by_id (HttpResult.response 404 body) = (none, [LogLevel.warning])) ∧
    (∀ (s : Int) (body : Json), s ≠ 200 →
        (get_jma_quake_by_id (HttpResult.response s body)).1 = none) ∧
    get_jma_quake_by_id HttpResult.netError = (none, [LogLevel.error]) ∧
    (∀ body : Json,
        get_jma_tsunami_by_id (HttpResult.response 404 body) = (none, [LogLevel.warning])) ∧
    (∀ (s : Int) (body : Json), s ≠ 200 →
        (get_jma_tsunami_by_id (HttpResult.response s body)).1 = none) ∧
    get_jma_tsunami_by_id HttpResult.netError = (none, [LogLevel.error]) ∧
    LogLevel.warning ≠ LogLevel.error := by
  refine ⟨?_, ?_, rfl, ?_, ?_, rfl, by decide⟩
  · intro body
    simp [get_jma_quake_by_id]
  · intro s body hs
    simp only [get_jma_quake_by_id]
    rw [if_neg hs]
    by_cases h4 : s = 404
    · rw [if_pos h4]
    · rw [if_neg h4]
  · intro body
    simp [get_jma_tsunami_by_id]
  · intro s body hs
    simp only [get_jma_tsunami_by_id]
    rw [if_neg hs]
    by_cases h4 : s = 404
    · rw [if_pos h4]
    · rw [if_neg h4]

/-- C6 witness: a 500 response yields `None` from the quake by-id
lookup. -/
theorem by_id_error_handling_witness :
    (500 : Int) ≠ 200 ∧ (get_jma_quake_by_id (HttpResult.response 500 Json.null)).1 = none :=
  ⟨by decide, by_id_error_handling.2.1 500 Json.null (by decide)⟩

/-- C7 counterexample: `stop_websocket_monitoring` only clears the flag;
on a state with an open connection the connection is still referenced
and still open afterwards, so the connection is not "closed as part of
the stop operation". -/
theorem stop_leaves_connection_open :
    (stop_websocket_monitoring stStop).ws_connection = some ⟨0, true⟩ ∧
    ((stop_websocket_monitoring stStop).ws_connection.map WsConn.isOpen) = some true := by
  exact ⟨rfl, rfl⟩

/-- C7 (amended): `stop_websocket_monitoring` sets `is_monitoring` to
false, after which the monitor loop's next flag check exits without
throwing; `stop` itself leaves `ws_connection` untouched — an open
connection is closed by `cleanup` (which also drops the reference), not
by the stop call. -/
theorem stop_websocket_monitoring_spec :
    ∀ st : ServiceState,
      (stop_websocket_monitoring st).is_monitoring = false ∧
      monitorFlagCheck (stop_websocket_monitoring st) = LoopDecision.exitLoop ∧
      (stop_websocket_monitoring st).ws_connection = st.ws_connection ∧
      (cleanup st).ws_connection = none := by
  intro st
  exact ⟨rfl, rfl, rfl, rfl⟩

/-- C9: when the remaining delta `rate_limit_delay - (now - last)` is
positive, `_rate_limit` sleeps exactly that long and then stores the
post-sleep clock reading in `last_request_time`; hence two back-to-back
calls (each outbound request issued at the instant its `_rate_limit`
returns) are separated by at least `delay`, whatever the second call's
entry time `t2`. -/
theorem rate_limit_spec (delay last t1 t2 : ℚ)
    (hpos : 0 < delay - (t1 - last)) :
    rateLimitSleep delay last t1 = delay - (t1 - last) ∧
    delay ≤ rateLimitReturnTime delay (rateLimitReturnTime delay last t1) t2 -
      rateLimitReturnTime delay last t1 := by
  constructor
  · unfold rateLimitSleep
    rw [if_pos (by linarith)]
  · generalize rateLimitReturnTime delay last t1 = r1
    unfold rateLimitReturnTime rateLimitSleep
    split_ifs with h
    · linarith
    · linarith

/-- C9 witness: delay 1, last request recorded at 0, second `_rate_limit`
entered at 1/2: the sleep is exactly 1/2 and the two issue instants are
at least 1 apart. -/
theorem rate_limit_spec_witness :
    (0 : ℚ) < 1 - (1 / 2 - 0) ∧
    (rateLimitSleep 1 0 (1 / 2) = 1 - (1 / 2 - 0) ∧
      1 ≤ rateLimitReturnTime 1 (rateLimitReturnTime 1 0 (1 / 2)) (3 / 2) -
        rateLimitReturnTime 1 0 (1 / 2)) :=
  ⟨by norm_num, rate_limit_spec 1 0 (1 / 2) (3 / 2) (by norm_num)⟩

/-- C10: every service operation except `cleanup` preserves a non-None
`ws_connection` (a connection loss and the reconnect wait leave the
stale object in place), and `get_service_status` reports
`websocket_connected` exactly when `ws_connection` is non-None — hence
true even while the monitor is disconnected and waiting to reconnect,
until `cleanup` runs. -/
theorem ws_connection_persists :
    (∀ (st : ServiceState) (op : ServiceOp), op ≠ ServiceOp.cleanupOp →
        st.ws_connection.isSome = true → (applyOp st op).ws_connection.isSome = true) ∧
    (∀ st : ServiceState, (get_service_status st).websocket_connected = st.ws_connection.isSome) := by
  constructor
  · intro st op hne h
    cases op with
    | startMonitoring => exact h
    | wsConnect c => rfl
    | wsMessage raw => rw [applyOp, monitorStep_ws]; exact h
    | wsConnectionLost => exact h
    | reconnectWait => exact h
    | stopMonitoring => exact h
    | registerCb code cb => exact h
    | cleanupOp => exact absurd rfl hne
  · intro st
    rfl

/-- C10 witness: on a state whose `ws_connection` references a closed
stale connection, a connection-loss step keeps it non-None and the
status still reports `websocket_connected = true`. -/
theorem ws_connection_persists_witness :
    ServiceOp.wsConnectionLost ≠ ServiceOp.cleanupOp ∧
    stClosed.ws_connection.isSome = true ∧
    (applyOp stClosed ServiceOp.wsConnectionLost).ws_connection.isSome = true ∧
    (get_service_status stClosed).websocket_connected = true := by
  have hne : ServiceOp.wsConnectionLost ≠ ServiceOp.cleanupOp := by
    intro h
    cases h
  refine ⟨hne, by rfl, ws_connection_persists.1 stClosed ServiceOp.wsConnectionLost hne (by rfl), ?_⟩
  rw [ws_connection_persists.2 stClosed]
  rfl

theorem ilookup_idictSet {β : Type} (d : List (Int × β)) (k : Int) (v : β) :
    ilookup (idictSet d k v) k = some v := by
  induction d with
  | nil => simp [idictSet, ilookup]
  | cons p rest ih =>
    obtain ⟨k', v'⟩ := p
    by_cases h : k' = k
    · subst h
      simp [idictSet, ilookup]
    · simp [idictSet, ilookup, h, ih]

theorem ilookup_append {β : Type} (d l : List (Int × β)) (k : Int)
    (h : ilookup d k = none) : ilookup (d ++ l) k = ilookup l k := by
  induction d with
  | nil => rfl
  | cons p rest ih =>
    obtain ⟨k', v'⟩ := p
    by_cases hk : k' = k
    · simp [ilookup, hk] at h
    · simp only [ilookup, List.cons_append, if_neg hk] at h ⊢
      exact ih h

/-- C5: `_trigger_callbacks` invokes every handler registered for the
message's code, in registration order, each with the same message; a
handler that raises is caught (its error only appears in the trace), so
it never prevents the following handlers, and the dispatcher itself
always returns (no exception reaches the monitor loop); and
`register_callback` appends the handler to the per-code list. -/
theorem callback_dispatch_spec :
    (∀ (cbs : List Callback) (m : PMsg),
        triggerCallbacksList cbs m = cbs.map (fun cb => runCallback cb m)) ∧
    (∀ (st : ServiceState) (m : PMsg),
        triggerCallbacks st m =
          ((ilookup st.callbacks m.code).getD []).map (fun cb => runCallback cb m)) ∧
    (∀ (d : List (Int × List Callback)) (code : Int) (cb : Callback),
        ilookup (register_callback d code cb) code =
          some ((ilookup d code).getD [] ++ [cb])) := by
  have h1 : ∀ (cbs : List Callback) (m : PMsg),
      triggerCallbacksList cbs m = cbs.map (fun cb => runCallback cb m) := by
    intro cbs m
    induction cbs with
    | nil => rfl
    | cons cb rest ih =>
      cases h : runCallback cb m with
      | ok u =>
        cases u
        simp [triggerCallbacksList, h, ih]
      | error e =>
        simp [triggerCallbacksList, h, ih]
  refine ⟨h1, ?_, ?_⟩
  · intro st m
    unfold triggerCallbacks
    cases h : ilookup st.callbacks m.code with
    | none => rfl
    | some cbs => simp [h1]
  · intro d code cb
    unfold register_callback
    cases h : ilookup d code with
    | some l => simp [ilookup_idictSet]
    | none =>
      rw [ilookup_append d _ code h]
      simp [ilookup]

/-- C2: a raw message object whose `code` field is not one of the seven
known information codes parses to `None` (without raising: the unknown
code only logs a warning), and the monitor step for it changes nothing —
`latest_data` and `data_history` are untouched and no callback is
invoked. -/
theorem unknown_code_dropped (st : ServiceState) (fs : List (String × Json))
    (h : ∀ c : ℚ, c ∈ ([551, 552, 554, 555, 556, 561, 9611] : List ℚ) →
        alookup fs "code" ≠ some (Json.num c)) :
    parseResponseData (Json.obj fs) = none ∧
    monitorStep st (Json.obj fs) = (st, []) := by
  have hp : parseResponseData (Json.obj fs) = none := by
    cases hc : alookup fs "code" with
    | none => simp [parseResponseData, hc]
    | some j =>
      cases j with
      | num q =>
        have hne : ∀ c : ℚ, c ∈ ([551, 552, 554, 555, 556, 561, 9611] : List ℚ) → ¬ (q = c) :=
          fun c hcm he => h c hcm (by rw [hc, he])
        simp [parseResponseData, hc, hne 551 (by norm_num), hne 552 (by norm_num),
          hne 554 (by norm_num), hne 555 (by norm_num), hne 556 (by norm_num),
          hne 561 (by norm_num), hne 9611 (by norm_num)]
      | null => simp [parseResponseData, hc]
      | bool b => simp [parseResponseData, hc]
      | str s => simp [parseResponseData, hc]
      | arr xs => simp [parseResponseData, hc]
      | obj fs2 => simp [parseResponseData, hc]
  exact ⟨hp, by simp [monitorStep, hp]⟩

/-- C2 witness: a message with code 999 parses to `None` and leaves the
service state untouched with no callback invoked. -/
theorem unknown_code_dropped_witness :
    (∀ c : ℚ, c ∈ ([551, 552, 554, 555, 556, 561, 9611] : List ℚ) →
        alookup unknownFields "code" ≠ some (Json.num c)) ∧
    parseResponseData (Json.obj unknownFields) = none ∧
    monitorStep stEmpty (Json.obj unknownFields) = (stEmpty, []) := by
  have hw : ∀ c : ℚ, c ∈ ([551, 552, 554, 555, 556, 561, 9611] : List ℚ) →
      alookup unknownFields "code" ≠ some (Json.num c) := by
    intro c hcm he
    rw [show alookup unknownFields "code" = some (Json.num 999) from rfl] at he
    have hj := Option.some.inj he
    injection hj with h9
    rw [← h9] at hcm
    norm_num [List.mem_cons] at hcm
  exact ⟨hw, (unknown_code_dropped stEmpty unknownFields hw).1,
    (unknown_code_dropped stEmpty unknownFields hw).2⟩

theorem pySliceLast_spec {α : Type} (xs : List α) (limit : Nat) (hl : 1 ≤ limit) :
    (pySliceLast xs limit).length = min limit xs.length ∧ pySliceLast xs limit <:+ xs := by
  unfold pySliceLast
  rw [if_neg (by omega)]
  exact ⟨by rw [List.length_drop]; omega, List.drop_suffix _ _⟩

theorem latest_generic (p : PMsg → Bool) (hist : List PMsg) (limit : Nat) (hl : 1 ≤ limit) :
    ((if (hist.filter p).isEmpty then [] else pySliceLast (hist.filter p) limit).length
        = min limit (hist.filter p).length) ∧
    (∀ m ∈ (if (hist.filter p).isEmpty then [] else pySliceLast (hist.filter p) limit),
        p m = true) ∧
    ((if (hist.filter p).isEmpty then [] else pySliceLast (hist.filter p) limit)
        <:+ hist.filter p) := by
  by_cases he : (hist.filter p).isEmpty
  · rw [if_pos he]
    have h0 : hist.filter p = [] := List.isEmpty_iff.mp he
    rw [h0]
    exact ⟨by simp, by simp, List.nil_suffix⟩
  · rw [if_neg he]
    obtain ⟨hlen, hsuf⟩ := pySliceLast_spec (hist.filter p) limit hl
    refine ⟨hlen, ?_, hsuf⟩
    intro m hm
    exact (List.mem_filter.mp (hsuf.subset hm)).2

/-- C4 counterexample: with one JMAQuake in the history,
`get_latest_earthquakes(limit=0)` returns 1 item, not at most 0: Python
`lst[-0:]` is `lst[0:]`, the whole filtered list. -/
theorem get_latest_limit_zero_counterexample :
    (get_latest_earthquakes stOneQuake 0).length = 1 ∧
    ¬ (get_latest_earthquakes stOneQuake 0).length ≤ 0 := by
  have h1 : (get_latest_earthquakes stOneQuake 0).length = 1 := by rfl
  exact ⟨h1, by rw [h1]; decide⟩

/-- C4 (amended): for every limit ≥ 1, each of the three latest-N
queries returns exactly the `min limit (filtered length)`-element suffix
of the history filtered to its variant, so: at most `limit` items, all
of the right variant, and precisely the most recent such entries in
insertion order.  (At limit = 0 the whole filtered history is returned
instead, see the counterexample.) -/
theorem get_latest_spec (st : ServiceState) (limit : Nat) (hl : 1 ≤ limit) :
    ((get_latest_earthquakes st limit).length =
        min limit (st.data_history.filter PMsg.isJmaQuake).length ∧
      (∀ m ∈ get_latest_earthquakes st limit, PMsg.isJmaQuake m = true) ∧
      get_latest_earthquakes st limit <:+ st.data_history.filter PMsg.isJmaQuake) ∧
    ((get_latest_tsunamis st limit).length =
        min limit (st.data_history.filter PMsg.isJmaTsunami).length ∧
      (∀ m ∈ get_latest_tsunamis st limit, PMsg.isJmaTsunami m = true) ∧
      get_latest_tsunamis st limit <:+ st.data_history.filter PMsg.isJmaTsunami) ∧
    ((get_latest_eew st limit).length =
        min limit (st.data_history.filter PMsg.isEew).length ∧
      (∀ m ∈ get_latest_eew st limit, PMsg.isEew m = true) ∧
      get_latest_eew st limit <:+ st.data_history.filter PMsg.isEew) :=
  ⟨latest_generic PMsg.isJmaQuake st.data_history limit hl,
   latest_generic PMsg.isJmaTsunami st.data_history limit hl,
   latest_generic PMsg.isEew st.data_history limit hl⟩

/-- C4 witness: limit 1 on a one-quake history. -/
theorem get_latest_spec_witness :
    1 ≤ 1 ∧ (get_latest_earthquakes stOneQuake 1).length =
      min 1 (stOneQuake.data_history.filter PMsg.isJmaQuake).length :=
  ⟨le_refl 1, (get_latest_spec stOneQuake 1 (le_refl 1)).1.1⟩

theorem takeLast_step (H : List PMsg) (m : PMsg) :
    (if (takeLast H 1000 ++ [m]).length > 1000 then
        (takeLast H 1000 ++ [m]).drop ((takeLast H 1000 ++ [m]).length - 1000)
      else takeLast H 1000 ++ [m]) = takeLast (H ++ [m]) 1000 := by
  have hq : ∀ L : List PMsg, (L ++ [m]).length = L.length + 1 := by
    intro L
    simp
  unfold takeLast
  rcases le_or_lt H.length 999 with hle | hgt
  · have e1 : H.length - 1000 = 0 := by omega
    have e2 : (H ++ [m]).length - 1000 = 0 := by
      rw [hq]
      omega
    have hnot : ¬ (H ++ [m]).length > 1000 := by
      rw [hq]
      omega
    simp only [e1, List.drop_zero]
    rw [if_neg hnot, e2, List.drop_zero]
  · have hlen : (H.drop (H.length - 1000)).length = 1000 := by
      rw [List.length_drop]
      omega
    have hcond : (H.drop (H.length - 1000) ++ [m]).length > 1000 := by
      rw [hq, hlen]
      omega
    have hlen2 : (H.drop (H.length - 1000) ++ [m]).length - 1000 = 1 := by
      rw [hq, hlen]
    have hle1 : 1 ≤ (H.drop (H.length - 1000)).length := by
      rw [hlen]
      omega
    rw [if_pos hcond, hlen2, List.drop_append_of_le_length hle1, List.drop_drop]
    have hle2 : (H ++ [m]).length - 1000 ≤ H.length := by
      rw [hq]
      omega
    rw [List.drop_append_of_le_length hle2]
    have hidx : (H ++ [m]).length - 1000 = H.length - 1000 + 1 := by
      rw [hq]
      omega
    rw [hidx]

theorem runMonitor_hist (raws : List Json) :
    ∀ (st : ServiceState) (H : List PMsg), st.data_history = takeLast H 1000 →
      (runMonitor st raws).data_history =
        takeLast (H ++ raws.filterMap parseResponseData) 1000 := by
  induction raws with
  | nil =>
    intro st H h
    simpa [runMonitor] using h
  | cons raw rest ih =>
    intro st H h
    show (runMonitor (monitorStep st raw).1 rest).data_history = _
    cases hp : parseResponseData raw with
    | none =>
      have hstep : (monitorStep st raw).1.data_history = st.data_history := by
        simp [monitorStep, hp]
      rw [ih _ H (by rw [hstep, h])]
      simp [List.filterMap_cons, hp]
    | some m =>
      have hstep : (monitorStep st raw).1.data_history = takeLast (H ++ [m]) 1000 := by
        simp only [monitorStep, hp]
        rw [h]
        exact takeLast_step H m
      rw [ih _ (H ++ [m]) hstep]
      simp [List.filterMap_cons, hp, List.append_assoc]

/-- C1: starting from an empty history, after any sequence of monitor
steps the history equals the at-most-1000-element suffix of all parsed
messages in receipt order (FIFO), hence never exceeds 1000 entries; and
a single step on a full (length-1000) history with a successfully parsed
message evicts exactly the oldest entry. -/
theorem monitor_history_bounded_fifo (st0 : ServiceState) (h0 : st0.data_history = []) :
    (∀ raws : List Json,
        (runMonitor st0 raws).data_history =
          takeLast (raws.filterMap parseResponseData) 1000 ∧
        (runMonitor st0 raws).data_history.length ≤ 1000) ∧
    (∀ (st : ServiceState) (raw : Json) (m : PMsg),
        st.data_history.length = 1000 → parseResponseData raw = some m →
        (monitorStep st raw).1.data_history = st.data_history.tail ++ [m]) := by
  constructor
  · intro raws
    have h := runMonitor_hist raws st0 [] (by rw [h0]; rfl)
    rw [List.nil_append] at h
    refine ⟨h, ?_⟩
    rw [h]
    unfold takeLast
    rw [List.length_drop]
    omega
  · intro st raw m hlen hp
    have hq : (st.data_history ++ [m]).length = st.data_history.length + 1 := by
      simp
    simp only [monitorStep, hp]
    have hcond : (st.data_history ++ [m]).length > 1000 := by
      rw [hq, hlen]
      omega
    rw [if_pos hcond]
    have h1 : (st.data_history ++ [m]).length - 1000 = 1 := by
      rw [hq, hlen]
    have hle1 : 1 ≤ st.data_history.length := by
      rw [hlen]
      omega
    rw [h1, List.drop_append_of_le_length hle1, List.drop_one]

/-- C1 witness: one valid code-551 message starting from the empty
history; the resulting buffer is exactly that parsed message. -/
theorem monitor_history_bounded_fifo_witness :
    stEmpty.data_history = [] ∧
    ((runMonitor stEmpty [jsonQuakeSample]).data_history =
        takeLast ([jsonQuakeSample].filterMap parseResponseData) 1000 ∧
      (runMonitor stEmpty [jsonQuakeSample]).data_history.length ≤ 1000) ∧
    (runMonitor stEmpty [jsonQuakeSample]).data_history = [sampleQuakeMsg] :=
  ⟨rfl, (monitor_history_bounded_fifo stEmpty rfl).1 [jsonQuakeSample], by rfl⟩

theorem isDigitChar_dChar {d : Nat} (h : d < 10) : isDigitChar (dChar d) = true := by
  interval_cases d <;> decide

theorem dVal_dChar {d : Nat} (h : d < 10) : dVal (dChar d) = d := by
  interval_cases d <;> decide

theorem dChar_not_ws {d : Nat} (h : d < 10) : (dChar d).isWhitespace = false := by
  interval_cases d <;> decide

theorem expectChar_cons_self (c : Char) (t : List Char) : expectChar c (c :: t) = some t := by
  simp [expectChar]

theorem skipWs_pad2 {v : Nat} (hv : v ≤ 99) (t : List Char) :
    skipWs (pad2 v ++ t) = pad2 v ++ t := by
  have h1 : v / 10 < 10 := by omega
  simp [pad2, skipWs, dChar_not_ws h1]

theorem expectWs_space_pad2 {v : Nat} (hv : v ≤ 99) (t : List Char) :
    expectWs (' ' :: (pad2 v ++ t)) = some (pad2 v ++ t) := by
  have h1 : (' ' : Char).isWhitespace = true := by decide
  simp [expectWs, h1, skipWs_pad2 hv]

theorem readNum2_pad2 (a2 a1 : Nat → Bool) {v : Nat} (hv : v ≤ 99) (h2 : a2 v = true)
    (rest : List Char) : readNum2 a2 a1 (pad2 v ++ rest) = some (v, rest) := by
  have hd1 : v / 10 < 10 := by omega
  have hd2 : v % 10 < 10 := by omega
  have hv2 : 10 * (v / 10) + v % 10 = v := by omega
  show readNum2 a2 a1 (dChar (v / 10) :: dChar (v % 10) :: rest) = some (v, rest)
  simp [readNum2, isDigitChar_dChar hd1, isDigitChar_dChar hd2, dVal_dChar hd1,
    dVal_dChar hd2, hv2, h2]

theorem read4_pad4 {v : Nat} (hv : v ≤ 9999) (rest : List Char) :
    read4Digits (pad4 v ++ rest) = some (v, rest) := by
  have h1 : v / 1000 < 10 := by omega
  have h2 : v / 100 % 10 < 10 := by omega
  have h3 : v / 10 % 10 < 10 := by omega
  have h4 : v % 10 < 10 := by omega
  have hsum : 1000 * (v / 1000) + (100 * (v / 100 % 10) + (10 * (v / 10 % 10) + v % 10)) = v := by
    omega
  show read4Digits (dChar (v / 1000) :: dChar (v / 100 % 10) :: dChar (v / 10 % 10) ::
    dChar (v % 10) :: rest) = some (v, rest)
  simp [read4Digits, isDigitChar_dChar h1, isDigitChar_dChar h2, isDigitChar_dChar h3,
    isDigitChar_dChar h4, dVal_dChar h1, dVal_dChar h2, dVal_dChar h3, dVal_dChar h4]
  omega

theorem padVar_len (k : Nat) : ∀ v : Nat, (padVar k v).length = k := by
  induction k with
  | zero => intro v; rfl
  | succ n ih => intro v; simp [padVar, ih]

theorem padVar_digits (k : Nat) : ∀ v : Nat, v < 10 ^ k →
    ∀ c ∈ padVar k v, isDigitChar c = true := by
  induction k with
  | zero =>
    intro v hv c hc
    simp [padVar] at hc
  | succ n ih =>
    intro v hv c hc
    have hpos : 0 < 10 ^ n := pow_pos (by norm_num) n
    simp only [padVar, List.mem_cons] at hc
    rcases hc with rfl | hc
    · have hdiv : v / 10 ^ n < 10 := by
        rw [Nat.div_lt_iff_lt_mul hpos]
        calc v < 10 ^ (n + 1) := hv
          _ = 10 * 10 ^ n := by ring
      exact isDigitChar_dChar hdiv
    · exact ih (v % 10 ^ n) (Nat.mod_lt _ hpos) c hc

theorem takeDigits_all (ds : List Char) (hd : ∀ c ∈ ds, isDigitChar c = true) :
    ∀ n : Nat, ds.length ≤ n → takeDigits n ds = (ds, []) := by
  induction ds with
  | nil =>
    intro n hn
    cases n <;> rfl
  | cons c t ih =>
    intro n hn
    cases n with
    | zero => simp at hn
    | succ n' =>
      have hc : isDigitChar c = true := hd c (by simp)
      have ht : ∀ x ∈ t, isDigitChar x = true := fun x hx => hd x (by simp [hx])
      have hlen : t.length ≤ n' := by
        simp only [List.length_cons] at hn
        omega
      simp [takeDigits, hc, ih ht n' hlen]

theorem digitsVal_padVar_aux (k : Nat) : ∀ v a : Nat, v < 10 ^ k →
    (padVar k v).foldl (fun a c => 10 * a + dVal c) a = a * 10 ^ k + v := by
  induction k with
  | zero =>
    intro v a hv
    interval_cases v
    simp [padVar]
  | succ n ih =>
    intro v a hv
    have hpos : 0 < 10 ^ n := pow_pos (by norm_num) n
    have hdiv : v / 10 ^ n < 10 := by
      rw [Nat.div_lt_iff_lt_mul hpos]
      calc v < 10 ^ (n + 1) := hv
        _ = 10 * 10 ^ n := by ring
    have hdm : 10 ^ n * (v / 10 ^ n) + v % 10 ^ n = v := Nat.div_add_mod v _
    simp only [padVar, List.foldl_cons]
    rw [dVal_dChar hdiv, ih (v % 10 ^ n) (10 * a + v / 10 ^ n) (Nat.mod_lt _ hpos)]
    calc (10 * a + v / 10 ^ n) * 10 ^ n + v % 10 ^ n
        = a * (10 ^ n * 10) + (10 ^ n * (v / 10 ^ n) + v % 10 ^ n) := by ring
      _ = a * 10 ^ (n + 1) + v := by rw [hdm, pow_succ]

theorem digitsVal_padVar {k v : Nat} (hv : v < 10 ^ k) : digitsVal (padVar k v) = v := by
  unfold digitsVal
  rw [digitsVal_padVar_aux k v 0 hv]
  simp

theorem readFrac_padVar {k f : Nat} (hk1 : 1 ≤ k) (hk6 : k ≤ 6) (hf : f < 10 ^ k) :
    readFrac (padVar k f) = some (f * 10 ^ (6 - k), []) := by
  have hlen : (padVar k f).length = k := padVar_len k f
  have ht : takeDigits 6 (padVar k f) = (padVar k f, []) :=
    takeDigits_all _ (padVar_digits k f hf) 6 (by rw [hlen]; omega)
  have hk0 : ¬ (k = 0) := by omega
  simp [readFrac, ht, hlen, hk0, digitsVal_padVar hf]

theorem daysInMonth_le (y mo : Nat) : daysInMonth y mo ≤ 31 := by
  unfold daysInMonth
  split_ifs <;> omega

theorem strptimeCore_render (y mo d h mi s : Nat) (rest : List Char)
    (hy : y ≤ 9999) (hmo1 : 1 ≤ mo) (hmo2 : mo ≤ 12) (hd1 : 1 ≤ d) (hd2 : d ≤ 31)
    (hh : h ≤ 23) (hmi : mi ≤ 59) (hs : s ≤ 61) :
    strptimeCore (renderDateTime y mo d h mi s ++ rest) = some (y, mo, d, h, mi, s, rest) := by
  simp only [renderDateTime, List.cons_append, List.append_assoc, strptimeCore,
    read4_pad4 hy, expectChar_cons_self,
    readNum2_pad2 (fun v => 1 ≤ v && v ≤ 12) (fun v => 1 ≤ v && v ≤ 9)
      (show mo ≤ 99 by omega) (by simp [hmo1, hmo2]),
    readNum2_pad2 (fun v => 1 ≤ v && v ≤ 31) (fun v => 1 ≤ v && v ≤ 9)
      (show d ≤ 99 by omega) (by simp [hd1, hd2]),
    expectWs_space_pad2 (show h ≤ 99 by omega),
    readNum2_pad2 (fun v => v ≤ 23) (fun _ => true) (show h ≤ 99 by omega) (by simp [hh]),
    readNum2_pad2 (fun v => v ≤ 59) (fun _ => true) (show mi ≤ 99 by omega) (by simp [hmi]),
    readNum2_pad2 (fun v => v ≤ 61) (fun _ => true) (show s ≤ 99 by omega) (by simp [hs])]

theorem strptimeNoFrac_render (y mo d h mi s : Nat)
    (hy1 : 1 ≤ y) (hy : y ≤ 9999) (hmo1 : 1 ≤ mo) (hmo2 : mo ≤ 12)
    (hd1 : 1 ≤ d) (hd2 : d ≤ daysInMonth y mo) (hh : h ≤ 23) (hmi : mi ≤ 59) (hs : s ≤ 59) :
    strptimeNoFrac (renderDateTime y mo d h mi s) = some ⟨y, mo, d, h, mi, s, 0⟩ := by
  have hd31 : d ≤ 31 := le_trans hd2 (daysInMonth_le y mo)
  have hcore := strptimeCore_render y mo d h mi s [] hy hmo1 hmo2 hd1 hd31 hh hmi (by omega)
  rw [List.append_nil] at hcore
  simp only [strptimeNoFrac, hcore, List.isEmpty_nil, if_true, mkDatetime]
  rw [if_pos ⟨hy1, hy, hmo1, hmo2, hd1, hd2, hh, hmi, hs, by omega⟩]

theorem strptimeWithFrac_render_none (y mo d h mi s : Nat)
    (hy : y ≤ 9999) (hmo1 : 1 ≤ mo) (hmo2 : mo ≤ 12)
    (hd1 : 1 ≤ d) (hd2 : d ≤ daysInMonth y mo) (hh : h ≤ 23) (hmi : mi ≤ 59) (hs : s ≤ 59) :
    strptimeWithFrac (renderDateTime y mo d h mi s) = none := by
  have hd31 : d ≤ 31 := le_trans hd2 (daysInMonth_le y mo)
  have hcore := strptimeCore_render y mo d h mi s [] hy hmo1 hmo2 hd1 hd31 hh hmi (by omega)
  rw [List.append_nil] at hcore
  simp [strptimeWithFrac, hcore, expectChar]

theorem strptimeWithFrac_render (y mo d h mi s k f : Nat)
    (hy1 : 1 ≤ y) (hy : y ≤ 9999) (hmo1 : 1 ≤ mo) (hmo2 : mo ≤ 12)
    (hd1 : 1 ≤ d) (hd2 : d ≤ daysInMonth y mo) (hh : h ≤ 23) (hmi : mi ≤ 59) (hs : s ≤ 59)
    (hk1 : 1 ≤ k) (hk6 : k ≤ 6) (hf : f < 10 ^ k) :
    strptimeWithFrac (renderWithFrac y mo d h mi s k f) =
      some ⟨y, mo, d, h, mi, s, f * 10 ^ (6 - k)⟩ := by
  have hd31 : d ≤ 31 := le_trans hd2 (daysInMonth_le y mo)
  have hcore := strptimeCore_render y mo d h mi s ('.' :: padVar k f)
    hy hmo1 hmo2 hd1 hd31 hh hmi (by omega)
  have hus : f * 10 ^ (6 - k) ≤ 999999 := by
    have h1 : f * 10 ^ (6 - k) < 10 ^ k * 10 ^ (6 - k) :=
      mul_lt_mul_of_pos_right hf (pow_pos (by norm_num) _)
    have h2 : 10 ^ k * 10 ^ (6 - k) = 10 ^ 6 := by
      rw [← pow_add]
      congr 1
      omega
    rw [h2] at h1
    norm_num at h1
    omega
  simp only [renderWithFrac, strptimeWithFrac, hcore, expectChar_cons_self,
    readFrac_padVar hk1 hk6 hf, List.isEmpty_nil, if_true, mkDatetime]
  rw [if_pos ⟨hy1, hy, hmo1, hmo2, hd1, hd2, hh, hmi, hs, hus⟩]

/-- C8: `parse_p2p_time` decodes every canonical
`YYYY/MM/DD HH:MM:SS` string with a 1-to-6-digit fractional-seconds
suffix, and every such string without the suffix, to the datetime the
string encodes; on a string neither `strptime` format accepts it
returns the supplied `now` — the `ValueError`s are caught, so the
function is total and never propagates a parse exception. -/
theorem parse_p2p_time_spec :
    (∀ (now : PDateTime) (y mo d h mi s : Nat),
        1 ≤ y → y ≤ 9999 → 1 ≤ mo → mo ≤ 12 → 1 ≤ d → d ≤ daysInMonth y mo →
        h ≤ 23 → mi ≤ 59 → s ≤ 59 →
        parse_p2p_time now (renderDateTime y mo d h mi s) = ⟨y, mo, d, h, mi, s, 0⟩) ∧
    (∀ (now : PDateTime) (y mo d h mi s k f : Nat),
        1 ≤ y → y ≤ 9999 → 1 ≤ mo → mo ≤ 12 → 1 ≤ d → d ≤ daysInMonth y mo →
        h ≤ 23 → mi ≤ 59 → s ≤ 59 → 1 ≤ k → k ≤ 6 → f < 10 ^ k →
        parse_p2p_time now (renderWithFrac y mo d h mi s k f) =
          ⟨y, mo, d, h, mi, s, f * 10 ^ (6 - k)⟩) ∧
    (∀ (now : PDateTime) (cs : List Char),
        strptimeWithFrac cs = none → strptimeNoFrac cs = none →
        parse_p2p_time now cs = now) := by
  refine ⟨?_, ?_, ?_⟩
  · intro now y mo d h mi s hy1 hy hmo1 hmo2 hd1 hd2 hh hmi hs
    simp only [parse_p2p_time,
      strptimeWithFrac_render_none y mo d h mi s hy hmo1 hmo2 hd1 hd2 hh hmi hs,
      strptimeNoFrac_render y mo d h mi s hy1 hy hmo1 hmo2 hd1 hd2 hh hmi hs]
  · intro now y mo d h mi s k f hy1 hy hmo1 hmo2 hd1 hd2 hh hmi hs hk1 hk6 hf
    simp only [parse_p2p_time,
      strptimeWithFrac_render y mo d h mi s k f hy1 hy hmo1 hmo2 hd1 hd2 hh hmi hs hk1 hk6 hf]
  · intro now cs h1 h2
    simp [parse_p2p_time, h1, h2]

/-- C8 witness: "2006/01/02 15:04:05.999" parses to the encoded instant
with microsecond 999000. -/
theorem parse_p2p_time_spec_witness :
    ((1 : Nat) ≤ 2006 ∧ (2 : Nat) ≤ daysInMonth 2006 1 ∧ (999 : Nat) < 10 ^ 3) ∧
    parse_p2p_time pNow (renderWithFrac 2006 1 2 15 4 5 3 999) =
      ⟨2006, 1, 2, 15, 4, 5, 999000⟩ := by
  refine ⟨by decide, ?_⟩
  have h := parse_p2p_time_spec.2.1 pNow 2006 1 2 15 4 5 3 999 (by decide) (by decide)
    (by decide) (by decide) (by decide) (by decide) (by decide) (by decide) (by decide)
    (by decide) (by decide) (by decide)
  simpa using h
